import Mathlib

/-!
Verification development for the `electron-win-state` window-state manager
(`src/index.ts`).  The class `WinState` keeps an in-memory geometry record
(`state`), a persistent key-value store (`store`), a resolved options record
(`opts`) and an optional bound window handle (`win`).  We embed the record
shapes, the pure methods (`getState`, `saveState`, `changeFrame`, `reset`,
`winOptions`, `changeHandler`, `isNormal`) and the listener lifecycle
(`manage`, `unmanage`, `closeHandler`, event dispatch) shallowly and prove
the specification's claims about them.
-/

namespace ElectronWinState

/-- The tracked record shape `{ width, height, x?, y?, frame? }`.  Every field
is optional: `none` models a JavaScript object in which the key is absent.
This one shape serves both for the persistent store contents and for the
in-memory `state` record (source: `State` in `types`, the store holds exactly
the tracked keys). -/
structure StateRec where
  width : Option Int
  height : Option Int
  x : Option Int
  y : Option Int
  frame : Option Bool
deriving DecidableEq, Repr

/-- The empty record: a store with no persisted keys. -/
def StateRec.empty : StateRec := ⟨none, none, none, none, none⟩

/-- Key-level semantics of `Object.assign`: the overriding object's key wins
when present, otherwise the base object's key survives. -/
def ov {α : Type} : Option α → Option α → Option α
  | some v, _ => some v
  | none, d => d

/-- `Object.assign({}, base, over)` restricted to the tracked keys: every key
present in `over` wins, keys absent in `over` fall back to `base`.  This is
also the semantics of `store.set(object)` (spec section 6: "full or partial
overwrite of tracked keys"): each key present in the argument is written,
absent keys are untouched. -/
def objAssign (base over : StateRec) : StateRec :=
  { width := ov over.width base.width
    height := ov over.height base.height
    x := ov over.x base.x
    y := ov over.y base.y
    frame := ov over.frame base.frame }

/-- The resolved configuration (`FinalOptions` after the constructor's
`Object.assign({}, defaultOptions, options)`).  The store-backend fields
(`electronStoreOptions`, `store`, `addMethods`) select external collaborators
and do not influence the claims' logic, so they are not carried here. -/
structure FinalOptions where
  defaultWidth : Int
  defaultHeight : Int
  defaultFrame : Bool
  storeFrameOption : Bool
  dev : Bool
  debounce : Nat
deriving DecidableEq, Repr

/-- The resolved default option table of the constructor, with
`storeFrameOption` already computed from whether the caller supplied
`defaultFrame` (source: `defaultOptions` in the constructor). -/
def resolvedDefaults (callerSuppliedDefaultFrame : Bool) : FinalOptions :=
  { defaultWidth := 600
    defaultHeight := 800
    defaultFrame := true
    storeFrameOption := callerSuppliedDefaultFrame
    dev := false
    debounce := 500 }

/-- The defaults record computed inside `getState`:
`{ width: defaultWidth, height: defaultHeight, ...(storeFrameOption && { frame: defaultFrame }) }`.
The conditional spread adds the `frame` key only when `storeFrameOption`. -/
def defaultsRec (o : FinalOptions) : StateRec :=
  { width := some o.defaultWidth
    height := some o.defaultHeight
    x := none
    y := none
    frame := if o.storeFrameOption then some o.defaultFrame else none }

/-- `getState()`: reads the full store contents and overlays them on the
computed defaults record (`Object.assign({}, defaults, stored)`). -/
def getState (o : FinalOptions) (stored : StateRec) : StateRec :=
  objAssign (defaultsRec o) stored

/-- Window handles are identified by a number; listener identity, not window
internals, is what the lifecycle claims are about. -/
abbrev WinId := Nat

/-- The mutable fields of a `WinState` instance: resolved options, the
persistent store contents, the in-memory state record and the optional bound
window reference. -/
structure Inst where
  opts : FinalOptions
  store : StateRec
  state : StateRec
  win : Option WinId
deriving DecidableEq, Repr

/-- The constructor: resolves options (taken here already resolved), keeps the
store, and seeds `state := this.getState()`.  No window is bound yet. -/
def mkInst (o : FinalOptions) (stored : StateRec) : Inst :=
  { opts := o, store := stored, state := getState o stored, win := none }

/-- `saveState()`: `store.set(this.state)` writes every key present in the
in-memory record into the store. -/
def saveState (i : Inst) : Inst :=
  { i with store := objAssign i.store i.state }

/-- `changeFrame(value)`: sets `state.frame = value` (unconditionally adding
the key) and immediately calls `saveState()`. -/
def changeFrame (i : Inst) (value : Bool) : Inst :=
  saveState { i with state := { i.state with frame := some value } }

/-- `reset()`: `store.clear()` — wipes the persistent store and touches
nothing else. -/
def reset (i : Inst) : Inst :=
  { i with store := StateRec.empty }

/-- `getState` as an instance operation: it reads the store and returns the
merged record without mutating the instance (the second component is the
instance after the call). -/
def getStateRun (i : Inst) : StateRec × Inst :=
  (getState i.opts i.store, i)

/-- The record returned by the `winOptions` getter:
`{ width, height, ...(storeFrameOption && { frame }), x, y }`. -/
structure WinOpts where
  width : Option Int
  height : Option Int
  frame : Option Bool
  x : Option Int
  y : Option Int
deriving DecidableEq, Repr

/-- The `winOptions` getter:
`{ width: this.width, height: this.height, ...(storeFrameOption && { frame: this.frame }), x: this.x, y: this.y }`,
where `this.width` etc. are the accessor getters over `state` (defined below
as `Inst.widthG` and friends, to which this definition is proved equal); the
`frame` key is spread in only when `storeFrameOption`. -/
def winOptions (i : Inst) : WinOpts :=
  { width := i.state.width
    height := i.state.height
    frame := if i.opts.storeFrameOption then i.state.frame else none
    x := i.state.x
    y := i.state.y }

/-- A bounds rectangle as returned by `win.getBounds()`. -/
structure Bounds where
  x : Int
  y : Int
  width : Int
  height : Int
deriving DecidableEq, Repr

/-- The live window's observable behaviour during one `changeHandler` run:
the result of each query the handler may issue.  `none` models the query
throwing (the handle became invalid concurrently with the event). -/
structure WinBehav where
  getBounds : Option Bounds
  isMinimized : Option Bool
  isFullScreen : Option Bool
deriving DecidableEq, Repr

/-- Runs a window query: a `none` result is a thrown exception. -/
def query {α : Type} : Option α → Except Unit α
  | some v => Except.ok v
  | none => Except.error ()

/-- `isNormal()`: `!this.win?.isMinimized() && !this.win?.isFullScreen()`,
with JavaScript short-circuit: when `isMinimized()` returns `true` the
full-screen query is not issued at all. -/
def isNormalE (beh : WinBehav) : Except Unit Bool :=
  match query beh.isMinimized with
  | Except.error e => Except.error e
  | Except.ok true => Except.ok false
  | Except.ok false =>
    match query beh.isFullScreen with
    | Except.error e => Except.error e
    | Except.ok f => Except.ok (!f)

/-- The body of `changeHandler()` (the `try` block): early-return when no
window is bound; otherwise query the bounds, and if the window is normal
overwrite `x`/`y` (substituting 0 for negative values) and `width`/`height`
from the live bounds; finally persist when the `dev` option is set.  Every
throwing query happens before any state mutation, so an error leaves the
instance untouched. -/
def changeHandlerBody (beh : WinBehav) (i : Inst) : Except Unit Inst :=
  match i.win with
  | none => Except.ok i
  | some _ =>
    match query beh.getBounds with
    | Except.error e => Except.error e
    | Except.ok b =>
      match isNormalE beh with
      | Except.error e => Except.error e
      | Except.ok n =>
        let st :=
          if n then
            { i.state with
              x := some (if b.x ≥ 0 then b.x else 0)
              y := some (if b.y ≥ 0 then b.y else 0)
              width := some b.width
              height := some b.height }
          else i.state
        let i1 := { i with state := st }
        Except.ok (if i.opts.dev then saveState i1 else i1)

/-- `changeHandler()` with its `catch` clause: any error from the body is
swallowed and the instance is left as it was. -/
def changeHandler (beh : WinBehav) (i : Inst) : Inst :=
  match changeHandlerBody beh i with
  | Except.ok i2 => i2
  | Except.error _ => i

/-- The `changeHandler()` call as observed by its caller (the event loop):
the `try`/`catch` means it always completes normally. -/
def changeHandlerCaught (beh : WinBehav) (i : Inst) : Except Unit Inst :=
  match changeHandlerBody beh i with
  | Except.ok i2 => Except.ok i2
  | Except.error _ => Except.ok i

/-- The five events `manage` subscribes to. -/
inductive WEvent
  | maximize
  | resize
  | move
  | close
  | closed
deriving DecidableEq, Repr

/-- What a subscribed closure does when invoked: the debounce-wrapped
geometry handler (its invocation only schedules a timer; the timer semantics
are modelled by `debounceCalls` below) or the close handler. -/
inductive HKind
  | debounced
  | closeFn
deriving DecidableEq, Repr

/-- One listener registration on a window: the window it is attached to, the
event name, the identity of the closure passed to `on` (each textual
`() => ...` or `debounce(...)` expression evaluates to a fresh function
object, so it gets a fresh id), and what the closure does. -/
structure LEntry where
  cid : Nat
  event : WEvent
  winId : WinId
  kind : HKind
deriving DecidableEq, Repr

/-- A world: the instance plus the listener tables of all windows, the
supply of fresh closure identities, and a count of `store.set` calls made by
`saveState` on the close path (how many times the state was persisted). -/
structure World where
  inst : Inst
  listeners : List LEntry
  nextId : Nat
  persistCount : Nat
deriving DecidableEq, Repr

/-- A world for a freshly constructed instance: no listeners anywhere, no
window bound, nothing persisted yet. -/
def initWorld (o : FinalOptions) (stored : StateRec) : World :=
  { inst := mkInst o stored, listeners := [], nextId := 0, persistCount := 0 }

/-- `manage(win)`: store the window reference and subscribe five listeners,
in source order `maximize`, `resize`, `move` (debounce-wrapped) then `close`,
`closed` (plain close-handler closures).  Each `on` call receives a freshly
constructed function object.  (The `addMethods` branch attaches plain
properties to the window object, not listeners, and is orthogonal to the
lifecycle claims.) -/
def manage (w : WinId) (W : World) : World :=
  let b := W.nextId
  { W with
    inst := { W.inst with win := some w }
    listeners := W.listeners ++
      [ ⟨b, WEvent.maximize, w, HKind.debounced⟩
      , ⟨b + 1, WEvent.resize, w, HKind.debounced⟩
      , ⟨b + 2, WEvent.move, w, HKind.debounced⟩
      , ⟨b + 3, WEvent.close, w, HKind.closeFn⟩
      , ⟨b + 4, WEvent.closed, w, HKind.closeFn⟩ ]
    nextId := b + 5 }

/-- `removeListener(event, fn)`: removes at most one registration on this
window whose subscribed function object is `fn` (identified by `cid`); when
no registration matches, it is a no-op. -/
def removeL (ls : List LEntry) (w : WinId) (ev : WEvent) (c : Nat) : List LEntry :=
  ls.eraseP (fun l => l.cid == c && l.event == ev && l.winId == w)

/-- `unmanage()`: when a window is bound, call `removeListener` for `resize`,
`move`, `close` and `closed` — each receiving a freshly constructed closure
(ids `nextId`..`nextId+3`), exactly as the source re-evaluates
`debounce(() => this.changeHandler(), ...)` and `() => this.closeHandler()`
at the call site — and clear the window reference.  No removal is attempted
for `maximize`.  When no window is bound, do nothing at all. -/
def unmanage (W : World) : World :=
  match W.inst.win with
  | none => W
  | some w =>
    let b := W.nextId
    { W with
      inst := { W.inst with win := none }
      listeners :=
        removeL (removeL (removeL (removeL W.listeners w WEvent.resize b)
          w WEvent.move (b + 1)) w WEvent.close (b + 2)) w WEvent.closed (b + 3)
      nextId := b + 4 }

/-- `closeHandler()`: `this.unmanage()` then `this.saveState()`. -/
def closeHandler (W : World) : World :=
  let W1 := unmanage W
  { W1 with inst := saveState W1.inst, persistCount := W1.persistCount + 1 }

/-- Runs one subscribed closure.  Invoking a debounce wrapper only schedules
its timer (no synchronous effect on the instance or store; the timer
behaviour is `debounceCalls` below); a close-handler closure runs
`closeHandler`. -/
def runListener (W : World) (l : LEntry) : World :=
  match l.kind with
  | HKind.debounced => W
  | HKind.closeFn => closeHandler W

/-- The emitter dispatching event `ev` on window `w`: the listeners
registered for that window and event at emit time are snapshotted and each
is run in subscription order. -/
def fireEvent (W : World) (w : WinId) (ev : WEvent) : World :=
  (W.listeners.filter (fun l => l.event == ev && l.winId == w)).foldl runListener W

/-- The registrations currently attached to window `w`. -/
def listenersOn (W : World) (w : WinId) : List LEntry :=
  W.listeners.filter (fun l => l.winId == w)

/-- Every closure identity appearing in the listener table was drawn from the
fresh-id supply: it is below `nextId`.  This holds for every world built by
the operations above from `initWorld`. -/
def IdsFresh (W : World) : Prop :=
  ∀ l ∈ W.listeners, l.cid < W.nextId

instance (W : World) : Decidable (IdsFresh W) :=
  inferInstanceAs (Decidable (∀ l ∈ W.listeners, l.cid < W.nextId))

/-- Modelled from the spec: the `debounce` library wrapping the geometry
handler is an external dependency whose source is not in the repository; the
spec (ChangeCoalescer, section 4.3) fixes its semantics as trailing-edge
debounce — each invocation resets a pending timer and the underlying handler
fires only after the delay elapses with no further invocations.

`debounceCalls d notifs` takes the strictly increasing timeline of
invocations of the wrapper (each paired with the window bounds current from
that instant on) and returns the timeline of underlying-handler executions,
each paired with the live bounds it observes at its fire time (the wrapped
closure takes no arguments; `changeHandler` reads the bounds live, so a call
firing at `t + d` before the next notification sees the bounds set at `t`).
A timer set at `t1` survives iff the next invocation arrives no earlier than
`t1 + d`. -/
def debounceCalls (d : Nat) : List (Nat × Bounds) → List (Nat × Bounds)
  | [] => []
  | [(t, b)] => [(t + d, b)]
  | (t1, b1) :: (t2, b2) :: rest =>
    if t1 + d ≤ t2 then
      (t1 + d, b1) :: debounceCalls d ((t2, b2) :: rest)
    else
      debounceCalls d ((t2, b2) :: rest)

/-- A burst: consecutive notifications are in strictly increasing time order
and each arrives within less than the debounce delay of the previous one. -/
def Burst (d : Nat) (notifs : List (Nat × Bounds)) : Prop :=
  notifs.Chain' (fun p q => p.1 < q.1 ∧ q.1 < p.1 + d)

instance (d : Nat) (notifs : List (Nat × Bounds)) : Decidable (Burst d notifs) :=
  inferInstanceAs
    (Decidable (notifs.Chain' (fun p q : Nat × Bounds => p.1 < q.1 ∧ q.1 < p.1 + d)))

/-- Accessor getter `width`: `this.state.width`. -/
def Inst.widthG (i : Inst) : Option Int := i.state.width

/-- Accessor getter `height`: `this.state.height`. -/
def Inst.heightG (i : Inst) : Option Int := i.state.height

/-- Accessor getter `frame`: `this.state.frame`. -/
def Inst.frameG (i : Inst) : Option Bool := i.state.frame

/-- Accessor getter `x`: `this.state.x`. -/
def Inst.xG (i : Inst) : Option Int := i.state.x

/-- Accessor getter `y`: `this.state.y`. -/
def Inst.yG (i : Inst) : Option Int := i.state.y

/-- A concrete resolved configuration: the constructor's defaults when the
caller supplied no `defaultFrame` (`storeFrameOption = false`). -/
def sampleOpts : FinalOptions := resolvedDefaults false

/-- A concrete instance with an (artificially) bound window handle `0`. -/
def sampleInstBound : Inst :=
  { mkInst sampleOpts StateRec.empty with win := some 0 }

/-- A window behaviour whose bounds query throws. -/
def behThrow : WinBehav := ⟨none, some false, some false⟩

/-- A window behaviour reporting minimized (the full-screen query would
throw, but short-circuit keeps it from being issued). -/
def behMin : WinBehav := ⟨some ⟨10, 20, 300, 200⟩, some true, none⟩

/-- A normal-mode window dragged to a negative x origin. -/
def behNormalNeg : WinBehav := ⟨some ⟨-50, 30, 640, 480⟩, some false, some false⟩

/-- Concrete bounds for the debounce-burst witness. -/
def boundsA : Bounds := ⟨0, 0, 100, 100⟩

/-- Concrete bounds for the debounce-burst witness. -/
def boundsB : Bounds := ⟨5, 5, 150, 120⟩

/-- Concrete bounds for the debounce-burst witness. -/
def boundsC : Bounds := ⟨8, 9, 200, 160⟩

/-- Overlaying the same record twice is the same as overlaying it once. -/
theorem ov_idem {α : Type} (x y : Option α) : ov x (ov x y) = ov x y := by
  cases x <;> rfl

/-- `store.set(s)` applied twice with the same record equals one application:
the second write overwrites each key it wrote with the same value. -/
theorem objAssign_idem (a b : StateRec) :
    objAssign (objAssign a b) b = objAssign a b := by
  simp [objAssign, ov_idem]

/-- Erasing with a predicate nothing satisfies is a no-op. -/
theorem removeL_fresh (ls : List LEntry) (w : WinId) (ev : WEvent) (c n : Nat)
    (hls : ∀ l ∈ ls, l.cid < n) (hc : n ≤ c) : removeL ls w ev c = ls := by
  unfold removeL
  apply List.eraseP_of_forall_not
  intro l hl
  have hlt : l.cid < n := hls l hl
  simp only [Bool.and_eq_true, beq_iff_eq]
  intro h
  omega

/-- C2: for every stored record R and every configuration, `getState()`
returns the defaults record (width and height always; frame only when
`storeFrameOption`) overlaid by R with R's keys winning on collision — width
and height fall back to the configured defaults only when absent from R, x
and y come from R alone, frame comes from R when present and otherwise from
the defaults exactly when `storeFrameOption`; and `getState` does not mutate
the instance, so two calls without intervening writes return identical
records. -/
theorem C2_theorem (o : FinalOptions) (R : StateRec) :
    (getState o R).width = some (R.width.getD o.defaultWidth) ∧
    (getState o R).height = some (R.height.getD o.defaultHeight) ∧
    (getState o R).x = R.x ∧
    (getState o R).y = R.y ∧
    (getState o R).frame =
      (if o.storeFrameOption then some (R.frame.getD o.defaultFrame) else R.frame) ∧
    (∀ i : Inst,
      (getStateRun i).2 = i ∧ (getStateRun ((getStateRun i).2)).1 = (getStateRun i).1) := by
  refine ⟨?_, ?_, ?_, ?_, ?_, fun i => ⟨rfl, rfl⟩⟩
  · cases h : R.width <;> simp [getState, objAssign, defaultsRec, ov, h]
  · cases h : R.height <;> simp [getState, objAssign, defaultsRec, ov, h]
  · cases h : R.x <;> simp [getState, objAssign, defaultsRec, ov, h]
  · cases h : R.y <;> simp [getState, objAssign, defaultsRec, ov, h]
  · cases hf : R.frame <;> cases hs : o.storeFrameOption <;>
      simp [getState, objAssign, defaultsRec, ov, hf, hs]

/-- C4 counterexample: with `storeFrameOption = false`, `changeFrame(false)`
followed by a fresh instance over the same store yields a record in which the
`frame` key is present (with value false), not absent as the claim states. -/
theorem C4_counterexample :
    sampleOpts.storeFrameOption = false ∧
    (mkInst sampleOpts
      (changeFrame (mkInst sampleOpts StateRec.empty) false).store).state.frame =
        some false := by
  exact ⟨rfl, rfl⟩

/-- C4 amended: after `changeFrame(false)`, a fresh instance over the same
store returns a record containing `frame: false` regardless of
`storeFrameOption`: `changeFrame` unconditionally writes the `frame` key into
the in-memory state and persists it, and stored keys win in `getState`'s
merge, so the key is present even when `storeFrameOption` is false. -/
theorem C4_theorem (o : FinalOptions) (stored : StateRec) :
    (mkInst o (changeFrame (mkInst o stored) false).store).state.frame = some false := by
  simp [mkInst, changeFrame, saveState, getState, objAssign, ov, defaultsRec]

/-- C8: `reset()` clears all persisted keys and does not mutate the in-memory
state record — `winOptions` and the width/height/frame/x/y accessors read
after `reset()` return their pre-reset values — and a fresh instance
constructed over the cleared store has `getState()` return exactly the
computed defaults, with no leftover x/y keys. -/
theorem C8_theorem (i : Inst) (o2 : FinalOptions) :
    (reset i).state = i.state ∧
    winOptions (reset i) = winOptions i ∧
    Inst.widthG (reset i) = Inst.widthG i ∧
    Inst.heightG (reset i) = Inst.heightG i ∧
    Inst.frameG (reset i) = Inst.frameG i ∧
    Inst.xG (reset i) = Inst.xG i ∧
    Inst.yG (reset i) = Inst.yG i ∧
    (reset i).store = StateRec.empty ∧
    (mkInst o2 (reset i).store).state = defaultsRec o2 ∧
    (defaultsRec o2).x = none ∧ (defaultsRec o2).y = none := by
  exact ⟨rfl, rfl, rfl, rfl, rfl, rfl, rfl, rfl, rfl, rfl, rfl⟩

/-- C10: `changeHandler` never propagates an error — for every window
behaviour (including ones where any query throws) the caught handler
completes normally, and when the body throws the handler returns with the
instance exactly as it was before the call. -/
theorem C10_theorem (beh : WinBehav) (i : Inst) :
    (∃ j, changeHandlerCaught beh i = Except.ok j) ∧
    (changeHandlerBody beh i = Except.error () →
      changeHandlerCaught beh i = Except.ok i) := by
  constructor
  · cases h : changeHandlerBody beh i with
    | ok j => exact ⟨j, by simp [changeHandlerCaught, h]⟩
    | error e => exact ⟨i, by simp [changeHandlerCaught, h]⟩
  · intro h
    simp [changeHandlerCaught, h]

/-- C10 witness: a bound window whose bounds query throws — the body errors
and the caught handler returns normally with the instance unchanged. -/
theorem C10_witness :
    changeHandlerBody behThrow sampleInstBound = Except.error () ∧
    changeHandlerCaught behThrow sampleInstBound = Except.ok sampleInstBound := by
  exact ⟨rfl, (C10_theorem behThrow sampleInstBound).2 rfl⟩

/-- C5: invoking `changeHandler` while the window reports minimized or
full-screen leaves x, y, width and height unchanged from their pre-call
values; and x/y (indeed the whole state record) are only ever written when
both display-mode queries succeed and report the window neither minimized nor
full-screen. -/
theorem C5_theorem :
    (∀ (beh : WinBehav) (i : Inst),
      beh.isMinimized = some true ∨
        (beh.isMinimized = some false ∧ beh.isFullScreen = some true) →
      (changeHandler beh i).state.x = i.state.x ∧
      (changeHandler beh i).state.y = i.state.y ∧
      (changeHandler beh i).state.width = i.state.width ∧
      (changeHandler beh i).state.height = i.state.height) ∧
    (∀ (beh : WinBehav) (i : Inst),
      ¬(beh.isMinimized = some false ∧ beh.isFullScreen = some false) →
      (changeHandler beh i).state = i.state) := by
  have key : ∀ (beh : WinBehav) (i : Inst),
      ¬(beh.isMinimized = some false ∧ beh.isFullScreen = some false) →
      (changeHandler beh i).state = i.state := by
    intro beh i h
    cases hw : i.win with
    | none => simp [changeHandler, changeHandlerBody, hw]
    | some w =>
      cases hb : beh.getBounds with
      | none => simp [changeHandler, changeHandlerBody, hw, hb, query]
      | some b =>
        cases hm : beh.isMinimized with
        | none => simp [changeHandler, changeHandlerBody, isNormalE, hw, hb, hm, query]
        | some m =>
          cases m with
          | true =>
            simp only [changeHandler, changeHandlerBody, isNormalE, hw, hb, hm, query,
              Bool.false_eq_true, if_false]
            split <;> simp [saveState]
          | false =>
            cases hf : beh.isFullScreen with
            | none => simp [changeHandler, changeHandlerBody, isNormalE, hw, hb, hm, hf, query]
            | some f =>
              cases f with
              | true =>
                simp only [changeHandler, changeHandlerBody, isNormalE, hw, hb, hm, hf, query,
                  Bool.not_true, Bool.false_eq_true, if_false]
                split <;> simp [saveState]
              | false => exact absurd ⟨hm, hf⟩ h
  refine ⟨?_, key⟩
  intro beh i h
  have hne : ¬(beh.isMinimized = some false ∧ beh.isFullScreen = some false) := by
    rcases h with h1 | ⟨h1, h2⟩
    · rintro ⟨h2, -⟩
      rw [h1] at h2
      exact absurd (Option.some.inj h2) (by simp)
    · rintro ⟨-, h3⟩
      rw [h2] at h3
      exact absurd (Option.some.inj h3) (by simp)
  rw [key beh i hne]
  exact ⟨rfl, rfl, rfl, rfl⟩

/-- C5 witness: a minimized window — the change handler leaves all four
geometry fields untouched. -/
theorem C5_witness :
    (behMin.isMinimized = some true ∨
      (behMin.isMinimized = some false ∧ behMin.isFullScreen = some true)) ∧
    (changeHandler behMin sampleInstBound).state.x = sampleInstBound.state.x ∧
    (changeHandler behMin sampleInstBound).state.y = sampleInstBound.state.y ∧
    (changeHandler behMin sampleInstBound).state.width = sampleInstBound.state.width ∧
    (changeHandler behMin sampleInstBound).state.height = sampleInstBound.state.height := by
  exact ⟨Or.inl rfl, C5_theorem.1 behMin sampleInstBound (Or.inl rfl)⟩

/-- C7: when the window is bound and both display-mode queries report normal
mode, `changeHandler` overwrites `state.x` and `state.y` from the live bounds
with negative values replaced by 0 (`max` with 0) and overwrites
`state.width` and `state.height` unconditionally from the live bounds. -/
theorem C7_theorem (beh : WinBehav) (i : Inst) (b : Bounds) (w : WinId)
    (hw : i.win = some w) (hb : beh.getBounds = some b)
    (hm : beh.isMinimized = some false) (hf : beh.isFullScreen = some false) :
    (changeHandler beh i).state.x = some (max b.x 0) ∧
    (changeHandler beh i).state.y = some (max b.y 0) ∧
    (changeHandler beh i).state.width = some b.width ∧
    (changeHandler beh i).state.height = some b.height := by
  have hx : (if b.x ≥ 0 then b.x else 0) = max b.x 0 := by
    split
    · exact (max_eq_left (by omega)).symm
    · exact (max_eq_right (by omega)).symm
  have hy : (if b.y ≥ 0 then b.y else 0) = max b.y 0 := by
    split
    · exact (max_eq_left (by omega)).symm
    · exact (max_eq_right (by omega)).symm
  simp only [changeHandler, changeHandlerBody, isNormalE, hw, hb, hm, hf, query,
    Bool.not_false, ite_true, if_true]
  split <;> simp [saveState, hx, hy]

/-- C7 witness: live bounds `x = -50, y = 30` in normal mode yield stored
`x = 0` and `y = 30` (and width/height are copied). -/
theorem C7_witness :
    sampleInstBound.win = some 0 ∧
    behNormalNeg.getBounds = some ⟨-50, 30, 640, 480⟩ ∧
    behNormalNeg.isMinimized = some false ∧
    behNormalNeg.isFullScreen = some false ∧
    (changeHandler behNormalNeg sampleInstBound).state.x = some 0 ∧
    (changeHandler behNormalNeg sampleInstBound).state.y = some 30 ∧
    (changeHandler behNormalNeg sampleInstBound).state.width = some 640 ∧
    (changeHandler behNormalNeg sampleInstBound).state.height = some 480 := by
  have h := C7_theorem behNormalNeg sampleInstBound ⟨-50, 30, 640, 480⟩ 0 rfl rfl rfl rfl
  refine ⟨rfl, rfl, rfl, rfl, ?_, ?_, h.2.2.1, h.2.2.2⟩
  · rw [h.1]
    norm_num
  · rw [h.2.1]
    norm_num

/-- C6: for every burst of N geometry-change notifications (N at least 1,
the list being `ns ++ [(t, b)]`) arriving within less than the debounce delay
of each other, the coalesced wrapper runs the underlying handler exactly
once, at `t + d` (after the delay elapses with no further notifications),
observing the bounds of the last notification in the burst. -/
theorem C6_theorem (d : Nat) (ns : List (Nat × Bounds)) (t : Nat) (b : Bounds)
    (h : Burst d (ns ++ [(t, b)])) :
    debounceCalls d (ns ++ [(t, b)]) = [(t + d, b)] := by
  induction ns with
  | nil => rfl
  | cons hd tl ih =>
    obtain ⟨t1, b1⟩ := hd
    cases tl with
    | nil =>
      have hrel : t1 < t ∧ t < t1 + d := by
        simp only [Burst, List.cons_append, List.nil_append, List.chain'_cons] at h
        exact h.1
      simp only [List.cons_append, List.nil_append, debounceCalls]
      rw [if_neg (by omega)]
    | cons hd2 tl2 =>
      obtain ⟨t2, b2⟩ := hd2
      have h' := h
      simp only [Burst, List.cons_append, List.chain'_cons] at h'
      have hrel : t1 < t2 ∧ t2 < t1 + d := h'.1
      have htail : Burst d (((t2, b2) :: tl2) ++ [(t, b)]) := by
        simp only [Burst, List.cons_append, List.chain'_cons]
        simpa [Burst, List.cons_append, List.chain'_cons] using h'.2
      simp only [List.cons_append, debounceCalls]
      rw [if_neg (by omega)]
      exact ih htail

/-- C6 witness: three resize notifications at 0, 100 and 300 ms with a 500 ms
delay form a burst, and the underlying handler runs exactly once, at 800 ms,
with the bounds of the last notification. -/
theorem C6_witness :
    Burst 500 [(0, boundsA), (100, boundsB), (300, boundsC)] ∧
    debounceCalls 500 [(0, boundsA), (100, boundsB), (300, boundsC)] =
      [(800, boundsC)] := by
  have hb : Burst 500 ([(0, boundsA), (100, boundsB)] ++ [(300, boundsC)]) := by
    simp [Burst, List.chain'_cons]
  refine ⟨by simpa using hb, ?_⟩
  have h := C6_theorem 500 [(0, boundsA), (100, boundsB)] 300 boundsC hb
  simpa using h

/-- `unmanage` is a strict no-op when no window is bound: the guarding
`if (this.win)` skips every removal and the reference assignment. -/
theorem unmanage_win_none (W : World) (h : W.inst.win = none) : unmanage W = W := by
  simp [unmanage, h]

/-- C1 counterexample: after `close` fires and then `closed` fires on the
same managed window, the state record is persisted twice, not exactly once —
the `closed` listener still fires after the first `close` was handled,
because `unmanage`'s removals pass freshly constructed closures. -/
theorem C1_counterexample :
    (fireEvent (fireEvent (manage 0 (initWorld sampleOpts StateRec.empty))
        0 WEvent.close) 0 WEvent.closed).persistCount = 2 ∧
    ¬((fireEvent (fireEvent (manage 0 (initWorld sampleOpts StateRec.empty))
        0 WEvent.close) 0 WEvent.closed).persistCount = 1) := by
  exact ⟨by decide, by decide⟩

/-- C1 amended: when a managed window fires `close` and then `closed`, the
close handler runs on both events (the `closed` listener is not removed by
the teardown, since the removals use fresh closures), so the state record is
persisted twice — both times with the same geometry, the state as of the
last confirmed change, so the final store contents equal those of a single
persist; the window reference is cleared by the first `close`; and
`unmanage` is idempotent and a no-op when no window is bound. -/
theorem C1_theorem (o : FinalOptions) (stored : StateRec) (w : WinId) :
    (fireEvent (fireEvent (manage w (initWorld o stored)) w WEvent.close)
        w WEvent.closed).persistCount = 2 ∧
    (fireEvent (fireEvent (manage w (initWorld o stored)) w WEvent.close)
        w WEvent.closed).inst.store = objAssign stored (getState o stored) ∧
    (fireEvent (fireEvent (manage w (initWorld o stored)) w WEvent.close)
        w WEvent.closed).inst.win = none ∧
    (∀ V : World, unmanage (unmanage V) = unmanage V) ∧
    (∀ V : World, V.inst.win = none → unmanage V = V) := by
  have hrun : ∀ V : World, V.inst.win = none → unmanage V = V := unmanage_win_none
  have hidem : ∀ V : World, unmanage (unmanage V) = unmanage V := by
    intro V
    cases hv : V.inst.win with
    | none => rw [hrun V hv, hrun V hv]
    | some v =>
      apply hrun
      simp [unmanage, hv]
  refine ⟨?_, ?_, ?_, hidem, hrun⟩ <;>
  simp [fireEvent, manage, initWorld, closeHandler, unmanage, runListener, removeL,
    saveState, mkInst, List.filter, List.eraseP, objAssign_idem,
    show (WEvent.maximize == WEvent.close) = false from rfl,
    show (WEvent.resize == WEvent.close) = false from rfl,
    show (WEvent.move == WEvent.close) = false from rfl,
    show (WEvent.close == WEvent.close) = true from rfl,
    show (WEvent.closed == WEvent.close) = false from rfl,
    show (WEvent.maximize == WEvent.closed) = false from rfl,
    show (WEvent.resize == WEvent.closed) = false from rfl,
    show (WEvent.move == WEvent.closed) = false from rfl,
    show (WEvent.close == WEvent.closed) = false from rfl,
    show (WEvent.closed == WEvent.closed) = true from rfl]

/-- C1 witness: a freshly constructed, unbound world is left exactly as it
is by `unmanage`. -/
theorem C1_witness :
    (initWorld sampleOpts StateRec.empty).inst.win = none ∧
    unmanage (initWorld sampleOpts StateRec.empty) = initWorld sampleOpts StateRec.empty := by
  exact ⟨rfl, (C1_theorem sampleOpts StateRec.empty 0).2.2.2.2 _ rfl⟩

/-- C3 counterexample: after `manage(0)` followed by `unmanage()`, all five
listeners are still attached to window 0 — none was removed, because each
`removeListener` call received a freshly constructed closure (and no removal
is attempted for `maximize` at all). -/
theorem C3_counterexample :
    (listenersOn (unmanage (manage 0 (initWorld sampleOpts StateRec.empty))) 0).length = 5 ∧
    ¬(listenersOn (unmanage (manage 0 (initWorld sampleOpts StateRec.empty))) 0 = []) := by
  exact ⟨by decide, by decide⟩

/-- C3 amended: after `manage(w)` followed by `unmanage()`, the stored window
reference is cleared but no listener is removed from w: the removal calls
pass freshly constructed wrapper closures that are referentially distinct
from the subscribed ones (so each removal is a no-op), and the `maximize`
listener is not even named in the removals. -/
theorem C3_theorem (W : World) (w : WinId) (hfresh : IdsFresh W)
    (hw : W.inst.win = some w) :
    (unmanage W).listeners = W.listeners ∧ (unmanage W).inst.win = none := by
  constructor
  · show (unmanage W).listeners = W.listeners
    simp only [unmanage, hw]
    rw [removeL_fresh W.listeners w WEvent.resize W.nextId W.nextId hfresh (by omega),
      removeL_fresh W.listeners w WEvent.move (W.nextId + 1) W.nextId hfresh (by omega),
      removeL_fresh W.listeners w WEvent.close (W.nextId + 2) W.nextId hfresh (by omega),
      removeL_fresh W.listeners w WEvent.closed (W.nextId + 3) W.nextId hfresh (by omega)]
  · simp [unmanage, hw]

/-- C3 witness: the concrete world obtained by managing window 0 from a
fresh instance satisfies the freshness invariant and is bound, and its
teardown removes nothing while clearing the reference. -/
theorem C3_witness :
    IdsFresh (manage 0 (initWorld sampleOpts StateRec.empty)) ∧
    (manage 0 (initWorld sampleOpts StateRec.empty)).inst.win = some 0 ∧
    (unmanage (manage 0 (initWorld sampleOpts StateRec.empty))).listeners =
      (manage 0 (initWorld sampleOpts StateRec.empty)).listeners ∧
    (unmanage (manage 0 (initWorld sampleOpts StateRec.empty))).inst.win = none := by
  refine ⟨by decide, rfl, ?_, ?_⟩
  · exact (C3_theorem _ 0 (by decide) rfl).1
  · exact (C3_theorem _ 0 (by decide) rfl).2

/-- C9 counterexample: the reachable sequence `manage 0; unmanage; manage 1`
leaves both window 0 and window 1 with attached listeners at the same time —
more than one live window handle with attached listeners exists for the one
instance, refuting the at-most-one-binding invariant as stated. -/
theorem C9_counterexample :
    ¬(listenersOn (manage 1 (unmanage (manage 0 (initWorld sampleOpts StateRec.empty)))) 0 = []) ∧
    ¬(listenersOn (manage 1 (unmanage (manage 0 (initWorld sampleOpts StateRec.empty)))) 1 = []) ∧
    (0 : WinId) ≠ 1 := by
  exact ⟨by decide, by decide, by decide⟩

/-- C9 amended: the instance's stored reference binds at most one window at
a time — `manage w` moves it to Bound(w) (overwriting any previous
reference) and `unmanage` moves it to Unbound — but listeners attached by an
earlier `manage` are never detached (`manage` leaves every other window's
listener table untouched), so several windows can simultaneously carry live
listeners for the same instance; the at-most-one property holds only for the
stored reference. -/
theorem C9_theorem (W : World) (w : WinId) :
    (manage w W).inst.win = some w ∧
    (unmanage W).inst.win = none ∧
    (∀ w2, w2 ≠ w → listenersOn (manage w W) w2 = listenersOn W w2) := by
  refine ⟨rfl, ?_, ?_⟩
  · cases hv : W.inst.win <;> simp [unmanage, hv]
  · intro w2 hne
    have hb : (w == w2) = false := beq_eq_false_iff_ne.mpr (Ne.symm hne)
    simp [listenersOn, manage, List.filter_append, List.filter, hb]

/-- C9 witness: managing window 0 does not touch window 1's (empty) listener
table. -/
theorem C9_witness :
    (1 : WinId) ≠ 0 ∧
    listenersOn (manage 0 (initWorld sampleOpts StateRec.empty)) 1 =
      listenersOn (initWorld sampleOpts StateRec.empty) 1 := by
  exact ⟨by decide, (C9_theorem (initWorld sampleOpts StateRec.empty) 0).2.2 1 (by decide)⟩

end ElectronWinState
